import Mathlib

/-!
A verification development for the paste-image filter of
`src/plugins/pastetools/filter/image.js` (CKEditor 4 pastetools).

The JavaScript source is shallowly embedded: strings are Lean `String`s
(worked on through their `List Char` data), records extracted from RTF are
values of an `ImageData` structure, and the mutable `ret` array of
`extractFromRtf` — which may hold several references to the *same* record
object — is modelled as a list of indices into an append-only store, so
that reference identity of records is the equality of store indices.

External collaborators of the file (the balanced-brace RTF group
primitives of the common RTF filter, `CKEDITOR.tools` hex/base64
conversion) are not part of the repository snapshot; they are modelled
from the specification's description of their interfaces and are marked
as such in their doc comments.

All definitions are executable with structural (fuel-based) recursion so
concrete runs reduce inside the kernel.
-/

set_option autoImplicit false

namespace PasteImage

/-- An image record extracted from RTF content, mirroring the `ImageData`
virtual class of the source: `id` is the identity marker (absent when the
source omits it), `hex` the whitespace-free hexadecimal payload (`none`
when the type is unsupported), `type` the MIME-like tag or `"unknown"`. -/
structure ImageData where
  id : Option String
  hex : Option String
  type : String
  deriving DecidableEq

/-- Placeholder record used to totalise store lookups; it satisfies the
payload invariant (no hex, unsupported type) so it never weakens one. -/
def defaultImageData : ImageData := ⟨none, none, "unknown"⟩

/-- Source constant `CKEDITOR.pasteFilters.image.supportedImageTypes`. -/
def supportedImageTypes : List String := ["image/png", "image/jpeg"]

/-- JavaScript truthiness of the `hex` field (`ret[ idx ].hex`):
`null` and the empty string are falsy. -/
def hexTruthy : Option String → Bool
  | none => false
  | some s => s ≠ ""

/-- JavaScript `\w` character class: ASCII letters, digits, underscore. -/
def isWordChar (c : Char) : Bool :=
  c.isAlphanum || c = '_'

/-- JavaScript `\s` for the payload-cleaning `replace( /\s/g, '' )`:
ASCII whitespace characters. -/
def jsSpace (c : Char) : Bool :=
  c = ' ' || c = '\t' || c = '\n' || c = '\r' || c = '\x0b' || c = '\x0c'

/-- Substring test on char lists: does `needle` occur in `l`? Used to
embed the constant marker regexes (`/\\pngblip/` etc. are plain substring
tests) and `indexOf( '\\defshp' ) !== -1`. -/
def containsChars : List Char → List Char → Bool
  | _, [] => false
  | needle, l@(_ :: tl) => needle.isPrefixOf l || containsChars needle tl

/-- String-level wrapper for `containsChars`. -/
def containsSub (s needle : String) : Bool :=
  containsChars needle.data s.data

/-- The `/\\wmetafile\d/` marker: the literal `\wmetafile` followed by a
decimal digit somewhere in the content. -/
def wmetafileAt : List Char → Bool
  | [] => false
  | l@(_ :: tl) =>
    (("\\wmetafile".data.isPrefixOf l &&
      (match l.drop 10 with
       | c :: _ => c.isDigit
       | [] => false))) || wmetafileAt tl

/-- Source constant `CKEDITOR.pasteFilters.image.recognizableImageTypes`: the fixed
ordered list of (marker test, type) pairs. -/
def recognizableImageTypes : List ((String → Bool) × String) :=
  [ (fun s => containsSub s "\\pngblip", "image/png"),
    (fun s => containsSub s "\\jpegblip", "image/jpeg"),
    (fun s => containsSub s "\\emfblip", "image/emf"),
    (fun s => wmetafileAt s.data, "image/wmf") ]

/-- Source function `getImageType`: first marker of `recognizableImageTypes` that tests
positively wins; otherwise `'unknown'`. -/
def getImageType (imageContent : String) : String :=
  match recognizableImageTypes.find? (fun test => test.1 imageContent) with
  | some test => test.2
  | none => "unknown"

/-- Match of `/\\blipuid (\w+)\}/` anchored at the head of `l`: the
literal `\blipuid `, a non-empty run of word characters (the capture),
then a closing brace. -/
def blipUidAt (l : List Char) : Option (List Char) :=
  if "\\blipuid ".data.isPrefixOf l then
    let rest := l.drop 9
    let w := rest.takeWhile isWordChar
    if w ≠ [] && (rest.drop w.length).head? = some '}' then some w else none
  else none

/-- Leftmost match of the blip-uid regex: `String.match` returns the
first (leftmost) match. The first argument is recursion fuel. -/
def scanBlipUid : Nat → List Char → Option (List Char)
  | 0, _ => none
  | _, [] => none
  | fuel + 1, l@(_ :: tl) =>
    match blipUidAt l with
    | some w => some w
    | none => scanBlipUid fuel tl

/-- Match of `/\\bliptag(-?\d+)/` anchored at the head of `l`: the
literal `\bliptag`, an optional minus sign, then a non-empty digit run;
the capture includes the sign. -/
def blipTagAt (l : List Char) : Option (List Char) :=
  if "\\bliptag".data.isPrefixOf l then
    let rest := l.drop 8
    match rest with
    | '-' :: rest2 =>
      let d := rest2.takeWhile Char.isDigit
      if d ≠ [] then some ('-' :: d) else none
    | _ =>
      let d := rest.takeWhile Char.isDigit
      if d ≠ [] then some d else none
  else none

/-- Leftmost match of the blip-tag regex. -/
def scanBlipTag : Nat → List Char → Option (List Char)
  | 0, _ => none
  | _, [] => none
  | fuel + 1, l@(_ :: tl) =>
    match blipTagAt l with
    | some w => some w
    | none => scanBlipTag fuel tl

/-- Source function `getImageId`: the blip-uid capture when present, else the blip-tag
capture, else `null`. -/
def getImageId (image : String) : Option String :=
  match scanBlipUid (image.length + 1) image.data with
  | some w => some (String.mk w)
  | none =>
    match scanBlipTag (image.length + 1) image.data with
    | some w => some (String.mk w)
    | none => none

/-- One step of stripping leading RTF control words (a backslash followed
by an alphanumeric run, with one optional delimiting space), iterated
with fuel. Part of the spec-modelled group-content extraction. -/
def dropControlWords : Nat → List Char → List Char
  | 0, l => l
  | fuel + 1, l =>
    match l with
    | '\\' :: tl =>
      match tl with
      | c :: _ =>
        if c.isAlphanum then
          let rest := tl.dropWhile Char.isAlphanum
          match rest with
          | ' ' :: r => dropControlWords fuel r
          | _ => dropControlWords fuel rest
        else l
      | [] => l
    | _ => l

/-- Modelled from the spec: `extractGroupContent( groupText )` of the
common RTF filter (not part of this snapshot) "strips the enclosing
group's control-word header" — here: the opening brace, the leading
control words, and the closing brace. -/
def extractGroupContent (g : String) : String :=
  let l :=
    match g.data with
    | '{' :: t => t
    | t => t
  let l2 := dropControlWords (l.length + 1) l
  let l3 :=
    if l2.getLast? = some '}' then l2.dropLast else l2
  String.mk l3

/-- Source function `getImageContent`: the group content with every whitespace character
removed (`content.replace( /\s/g, '' )`). -/
def getImageContent (image : String) : String :=
  String.mk ((extractGroupContent image).data.filter (fun c => !(jsSpace c)))

/-- Modelled from the spec: skip a balanced-brace RTF group; called with
the characters following an opening brace and depth 1, it returns the
text after the matching closing brace (used by the group-removal
primitive of the common RTF filter, not part of this snapshot). -/
def skipGroup : Nat → Nat → List Char → Option (List Char)
  | 0, _, _ => none
  | _, _, [] => none
  | fuel + 1, depth, c :: tl =>
    if c = '{' then skipGroup fuel (depth + 1) tl
    else if c = '}' then
      if depth = 1 then some tl else skipGroup fuel (depth - 1) tl
    else skipGroup fuel depth tl

/-- Does the text begin a group matched by the removal pattern
`(?:(?:header|footer)[lrf]?|nonshppict|shprslt)` — an opening brace, a
backslash, and one of the alternatives (the optional `[lrf]` suffix does
not affect where a match begins)? -/
def headerFooterGroupAt (l : List Char) : Bool :=
  match l with
  | '{' :: '\\' :: w =>
    "header".data.isPrefixOf w || "footer".data.isPrefixOf w ||
      "nonshppict".data.isPrefixOf w || "shprslt".data.isPrefixOf w
  | _ => false

/-- Modelled from the spec: `removeGroups` of the common RTF filter,
instantiated at the header/footer/non-Word-picture/drawn-object pattern —
deletes every matched balanced-brace group. -/
def removeHeaderFooterGroups : Nat → List Char → List Char
  | 0, l => l
  | _, [] => []
  | fuel + 1, l@(c :: tl) =>
    if headerFooterGroupAt l then
      match skipGroup fuel 1 tl with
      | some rest => removeHeaderFooterGroups fuel rest
      | none => l
    else c :: removeHeaderFooterGroups fuel tl

/-- Grab a balanced-brace group (full text, braces included): called on
the characters after the opening brace with depth 1 and the reversed
prefix grabbed so far; returns the group text and the rest. -/
def grabGroup : Nat → Nat → List Char → List Char → Option (List Char × List Char)
  | 0, _, _, _ => none
  | _, _, _, [] => none
  | fuel + 1, depth, acc, c :: tl =>
    if c = '{' then grabGroup fuel (depth + 1) (c :: acc) tl
    else if c = '}' then
      if depth = 1 then some ((c :: acc).reverse, tl)
      else grabGroup fuel (depth - 1) (c :: acc) tl
    else grabGroup fuel depth (c :: acc) tl

/-- Modelled from the spec: `getGroups( rtfContent, 'pict' )` of the
common RTF filter — every balanced-brace group introduced by the `pict`
control word, in document order, each with its full text. -/
def getPictGroups : Nat → List Char → List (List Char)
  | 0, _ => []
  | _, [] => []
  | fuel + 1, l@(_ :: tl) =>
    if "\x7b\\pict".data.isPrefixOf l then
      match grabGroup fuel 1 ['{'] tl with
      | some (g, rest) => g :: getPictGroups fuel rest
      | none => []
    else getPictGroups fuel tl

/-- The state of the `extractFromRtf` loop: `store` is the set of record
objects allocated so far (append-only; a JavaScript heap), `ret` the
`ret` array as a list of store indices, so that pushing `ret[ idx ]`
again shares the record by reference. -/
structure ExtractState where
  store : List ImageData
  ret : List Nat
  deriving DecidableEq

/-- The empty initial state (`ret = []`). -/
def initExtractState : ExtractState := ⟨[], []⟩

/-- The record a `ret` position refers to. -/
def recAtRet (st : ExtractState) (idx : Nat) : ImageData :=
  st.store.getD (st.ret.getD idx 0) defaultImageData

/-- Source function `getImageIndex( imageId )`: `-1` (here `none`) when the id is not a
string, else the first `ret` position whose record has that id. -/
def imageDataIndexOf (st : ExtractState) (g : String) : Option Nat :=
  match getImageId g with
  | none => none
  | some id =>
    List.findIdx? (fun k => (st.store.getD k defaultImageData).id = some id) st.ret

/-- Source flag `isAlreadyExtracted`: an index was found and the record there has a
truthy `hex`. -/
def isAlreadyExtracted (st : ExtractState) (g : String) : Bool :=
  match imageDataIndexOf st g with
  | some idx => hexTruthy (recAtRet st idx).hex
  | none => false

/-- Source flag `isDuplicated`: already extracted and the existing record's type
equals the group's classified type. -/
def isDuplicated (st : ExtractState) (g : String) : Bool :=
  isAlreadyExtracted st g &&
    (match imageDataIndexOf st g with
     | some idx => (recAtRet st idx).type = getImageType g
     | none => false)

/-- Source flag `isAlternateFormat`: already extracted, types differ, and the matched
record is the last element of `ret`. -/
def isAlternateFormat (st : ExtractState) (g : String) : Bool :=
  isAlreadyExtracted st g &&
    (match imageDataIndexOf st g with
     | some idx =>
       (recAtRet st idx).type ≠ getImageType g && idx + 1 = st.ret.length
     | none => false)

/-- Source flag `isWordArtShape`: `currentImage.indexOf( '\\defshp' ) !== -1`. -/
def isWordArtShape (g : String) : Bool :=
  containsSub g "\\defshp"

/-- Source flag `isSupportedType` for a classified type. -/
def isSupportedType (t : String) : Bool :=
  supportedImageTypes.contains t

/-- The `newImageData` object built for a group: `hex` is the cleaned
payload for supported types, `null` otherwise. -/
def mkNewImageData (g : String) : ImageData :=
  { id := getImageId g,
    hex := if isSupportedType (getImageType g) then some (getImageContent g) else none,
    type := getImageType g }

/-- One iteration of the `extractFromRtf` loop on a located group:
duplicates push the existing record by reference; alternate-format
renditions and WordArt shapes are dropped; otherwise a fresh record is
allocated and either spliced over the matched position or appended. -/
def extractStep (st : ExtractState) (g : String) : ExtractState :=
  if isDuplicated st g then
    match imageDataIndexOf st g with
    | some idx => { st with ret := st.ret ++ [st.ret.getD idx 0] }
    | none => st
  else if isAlternateFormat st g || isWordArtShape g then st
  else
    match imageDataIndexOf st g with
    | some idx => ⟨st.store ++ [mkNewImageData g], st.ret.set idx st.store.length⟩
    | none => ⟨st.store ++ [mkNewImageData g], st.ret ++ [st.store.length]⟩

/-- The final extraction state for a list of located picture groups. -/
def extractRun (groups : List String) : ExtractState :=
  groups.foldl extractStep initExtractState

/-- The record sequence produced by the `extractFromRtf` loop from the
located picture groups (the `ret` array with references dereferenced). -/
def extractFromRtfGroups (groups : List String) : List ImageData :=
  let st := extractRun groups
  st.ret.map (fun k => st.store.getD k defaultImageData)

/-- Source function `extractFromRtf`: remove header/footer/non-Word-picture/drawn-object
groups, collect the `pict` groups, and run the extraction loop. -/
def extractFromRtf (rtfContent : String) : List ImageData :=
  let cleaned := removeHeaderFooterGroups (rtfContent.length + 1) rtfContent.data
  let groups := getPictGroups (cleaned.length + 1) cleaned
  extractFromRtfGroups (groups.map String.mk)

/-- Hexadecimal digit value (0 for other characters; the source never
validates payload characters). -/
def hexDigitVal (c : Char) : Nat :=
  if 48 ≤ c.toNat && c.toNat ≤ 57 then c.toNat - 48
  else if 97 ≤ c.toNat && c.toNat ≤ 102 then c.toNat - 87
  else if 65 ≤ c.toNat && c.toNat ≤ 70 then c.toNat - 55
  else 0

/-- Consecutive character pairs as byte values; a trailing lone digit
yields its own value (JavaScript `parseInt` on a one-character slice). -/
def hexPairsToBytes : List Char → List Nat
  | [] => []
  | [c] => [hexDigitVal c]
  | a :: b :: tl => (16 * hexDigitVal a + hexDigitVal b) :: hexPairsToBytes tl

/-- Modelled from the spec: `hexToBytes` — the external
`CKEDITOR.tools.convertHexStringToBytes` collaborator. -/
def convertHexStringToBytes (hex : String) : List Nat :=
  hexPairsToBytes hex.data

/-- The base64 alphabet. -/
def base64Table : List Char :=
  "ABCDEFGHIJKLMNOPQRSTUVWXYZabcdefghijklmnopqrstuvwxyz0123456789+/".data

/-- The base64 character of a 6-bit value. -/
def base64Char (n : Nat) : Char :=
  base64Table.getD n 'A'

/-- Base64 encoding of byte triples with `=` padding. -/
def base64Chunks : List Nat → List Char
  | [] => []
  | [a] => [base64Char (a / 4), base64Char (a % 4 * 16), '=', '=']
  | [a, b] =>
    [base64Char (a / 4), base64Char (a % 4 * 16 + b / 16), base64Char (b % 16 * 4), '=']
  | a :: b :: c :: tl =>
    [base64Char (a / 4), base64Char (a % 4 * 16 + b / 16),
      base64Char (b % 16 * 4 + c / 64), base64Char (c % 64)] ++ base64Chunks tl

/-- Modelled from the spec: `bytesToBase64` — the external
`CKEDITOR.tools.convertBytesToBase64` collaborator. -/
def convertBytesToBase64 (bytes : List Nat) : String :=
  String.mk (base64Chunks bytes)

/-- Source function `createSrcWithBase64`: `null` for unsupported (or falsy) types, else
the `data:<type>;base64,<payload>` data URL. -/
def createSrcWithBase64 (img : ImageData) : Option String :=
  if isSupportedType img.type then
    if img.type ≠ "" then
      some ("data:" ++ img.type ++ ";base64," ++
        convertBytesToBase64 (convertHexStringToBytes (img.hex.getD "")))
    else none
  else none

/-- Candidate capture positions for the scanner regex
`/<img[^>]+src="([^"]+)[^>]+/`, after the trailing `[^>]+` forced a
backtrack of the greedy capture (only possible at end of input): the
largest `k` such that the character after the first `k` capture
characters can start `[^>]+`. -/
def findBacktrackK (c : List Char) : Nat → Option Nat
  | 0 => none
  | k + 1 =>
    if c.getD (k + 1) '>' != '>' then some (k + 1) else findBacktrackK c k

/-- The `([^"]+)[^>]+` suffix of the scanner regex, at the position just
after `src="`: returns the capture and the rest after the whole greedy
match, or `none` when the suffix cannot match here. -/
def scanCapture (v : List Char) : Option (List Char × List Char) :=
  let c := v.takeWhile (fun x => x != '"')
  let rest2 := v.drop c.length
  if c.isEmpty then none
  else
    match rest2 with
    | [] =>
      match findBacktrackK c (c.length - 1) with
      | some k => some (c.take k, (c.drop k).dropWhile (fun x => x != '>'))
      | none => none
    | _ => some (c, rest2.dropWhile (fun x => x != '>'))

/-- Greedy backtracking of the first `[^>]+` of the scanner regex: try
the rightmost `src="` within the non-`>` run first (positions `1 ≤ q ≤`
bound, measured from the character after `<img`). -/
def bestQuoteSrc : Nat → List Char → Option (List Char × List Char)
  | 0, _ => none
  | _, [] => none
  | q + 1, _ :: tl =>
    match bestQuoteSrc q tl with
    | some r => some r
    | none =>
      if "src=\"".data.isPrefixOf tl then scanCapture (tl.drop 5) else none

/-- Match of the scanner regex anchored at the head of `l`: the captured
src value and the rest of the text after the match. -/
def tryMatchImg (l : List Char) : Option (String × List Char) :=
  if "<img".data.isPrefixOf l then
    let u := l.drop 4
    let run := u.takeWhile (fun c => c != '>')
    match bestQuoteSrc run.length u with
    | some (cap, rest) => some (String.mk cap, rest)
    | none => none
  else none

/-- The `exec` loop of `extractTagsFromHtml`: leftmost match, push the
capture, continue after the match end. -/
def imgScanLoop : Nat → List Char → List String
  | 0, _ => []
  | _, [] => []
  | fuel + 1, l@(_ :: tl) =>
    match tryMatchImg l with
    | some (cap, rest) => cap :: imgScanLoop fuel rest
    | none => imgScanLoop fuel tl

/-- Source function `extractTagsFromHtml`: the ordered src captures of the global regex
`/<img[^>]+src="([^"]+)[^>]+/g` over the html text. -/
def extractTagsFromHtml (html : String) : List String :=
  imgScanLoop (html.length + 1) html.data

/-- The `src=["']?<path>` suffix of the substitution pattern, tried at an
`[^>]*`/`src=` boundary. The source doubles the path's backslashes and
splices it into a regex, so the path's characters are matched literally
here; returns the consumed characters (part of group 1 plus the path is
dropped) and the rest after the match. -/
def trySrcPath (path : List Char) (u : List Char) : Option (List Char × List Char) :=
  if "src=".data.isPrefixOf u then
    let v := u.drop 4
    let withQuote :=
      match v with
      | c :: w =>
        if (c = '"' || c = Char.ofNat 39) && path.isPrefixOf w then
          some ("src=".data ++ [c], w.drop path.length)
        else none
      | [] => none
    match withQuote with
    | some r => some r
    | none =>
      if path.isPrefixOf v then some ("src=".data, v.drop path.length) else none
  else none

/-- Greedy backtracking of `[^>]*` in the substitution pattern
`(<img [^>]*src=["']?)<path>`: rightmost boundary first, positions
`0 ≤ q ≤` bound. Returns group 1's tail (the `[^>]*` characters plus
`src=` and the optional quote) and the rest after the matched path. -/
def bestPathSrc (path : List Char) : Nat → List Char → Option (List Char × List Char)
  | 0, u => trySrcPath path u
  | q + 1, u =>
    match u with
    | [] => trySrcPath path u
    | c :: tl =>
      match bestPathSrc path q tl with
      | some (consumed, rest) => some (c :: consumed, rest)
      | none => trySrcPath path u

/-- Match of the substitution pattern anchored at the head of `l`:
group 1 (everything up to and including `src=` and the optional quote)
and the rest after the matched path. -/
def matchImgPathAt (path : List Char) (l : List Char) : Option (List Char × List Char) :=
  if "<img ".data.isPrefixOf l then
    let u := l.drop 5
    let run := u.takeWhile (fun c => c != '>')
    match bestPathSrc path run.length u with
    | some (consumed, rest) => some ("<img ".data ++ consumed, rest)
    | none => none
  else none

/-- Leftmost-match replacement: `html.replace( imgRegex, '$1' + newSrc )`
replaces the first match with group 1 followed by the new source value
(data URLs contain no `$`, so the replacement string is literal). -/
def replaceFirstAux (path newSrc : List Char) : Nat → List Char → Option (List Char)
  | 0, _ => none
  | _, [] => none
  | fuel + 1, l@(c :: tl) =>
    match matchImgPathAt path l with
    | some (g1, rest) => some (g1 ++ newSrc ++ rest)
    | none =>
      match replaceFirstAux path newSrc fuel tl with
      | some r => some (c :: r)
      | none => none

/-- The `html.replace` call of the substitution loop; html is returned
unchanged when the pattern does not match. -/
def replaceImgSrc (html path newSrc : String) : String :=
  match replaceFirstAux path.data newSrc.data (html.length + 1) html.data with
  | some l => String.mk l
  | none => html

/-- The conditions reported through `CKEDITOR.error` by the reconciler. -/
inductive RtfFilterError where
  | countMismatch (rtfCount htmlCount : Nat)
  | unsupportedImage (imgType : String) (index : Nat)
  deriving DecidableEq

/-- Source test `imgTags[ i ].indexOf( 'file://' ) === 0`. -/
def startsWithFile (s : String) : Bool :=
  "file://".data.isPrefixOf s.data

/-- The substitution loop of `handleRtfImages` over the positionally
zipped tags, encoded sources, and records, threading the html text and
collecting reported conditions in index order. -/
def substLoop : List (String × Option String × ImageData) → Nat → String →
    String × List RtfFilterError
  | [], _, html => (html, [])
  | (tag, enc, rec) :: rest, i, html =>
    if startsWithFile tag then
      match enc with
      | none =>
        let r := substLoop rest (i + 1) html
        (r.1, RtfFilterError.unsupportedImage rec.type i :: r.2)
      | some src => substLoop rest (i + 1) (replaceImgSrc html tag src)
    else substLoop rest (i + 1) html

/-- Source function `handleRtfImages`: extract records, bail out on an empty extraction,
encode, abort with a count-mismatch condition when the tag and record
counts differ, otherwise run the substitution loop. -/
def handleRtfImages (html rtf : String) (imgTags : List String) :
    String × List RtfFilterError :=
  let hexImages := extractFromRtf rtf
  if hexImages = [] then (html, [])
  else
    let newSrcValues := hexImages.map createSrcWithBase64
    if imgTags.length ≠ newSrcValues.length then
      (html, [RtfFilterError.countMismatch hexImages.length imgTags.length])
    else substLoop (imgTags.zip (newSrcValues.zip hexImages)) 0 html

/-- Source function `handleBlobImages`: a passthrough stub in this core. -/
def handleBlobImages (html : String) : String :=
  html

/-- Entry point `CKEDITOR.pasteFilters.image`: capability gate, tag scan, and
dispatch between the RTF path and the blob path. The editor collaborator
is reduced to the boolean outcome of its `img[src]` capability check
(a missing active filter behaves as `true`); an absent rtf clipboard is
the empty string (JavaScript falsiness of `rtf`). -/
def pasteFiltersImage (html : String) (editorAllowsImg : Bool) (rtf : String) :
    String × List RtfFilterError :=
  if !editorAllowsImg then (html, [])
  else
    let imgTags := extractTagsFromHtml html
    if imgTags = [] then (html, [])
    else if rtf ≠ "" then handleRtfImages html rtf imgTags
    else (handleBlobImages html, [])

/-! ## Theorems -/

/-- Claim C1: a non-empty extracted record sequence whose length differs
from the scanned tag count makes the reconciler report a count-mismatch
condition carrying the RTF record count and the HTML tag count, and
return the input html unchanged. -/
theorem C1_count_mismatch_aborts (html rtf : String) (imgTags : List String)
    (hne : extractFromRtf rtf ≠ [])
    (hlen : imgTags.length ≠ (extractFromRtf rtf).length) :
    handleRtfImages html rtf imgTags =
      (html, [RtfFilterError.countMismatch (extractFromRtf rtf).length imgTags.length]) := by
  simp [handleRtfImages, List.length_map, hne, hlen]

/-- Witness for C1 at a concrete html, rtf, and tag list (one extracted
record against two scanned tags). -/
theorem C1_count_mismatch_aborts_witness :
    handleRtfImages "<p>h</p>" "\x7b\\rtf1\x7b\\pict\\pngblip 12\x7d\x7d" ["a", "b"] =
      ("<p>h</p>", [RtfFilterError.countMismatch 1 2]) := by
  rw [C1_count_mismatch_aborts] <;> decide

/-- Claim C2: a tag whose src does not begin with `file://` is skipped by
the substitution loop — the html is left untouched at that position and
no condition is reported there, even when an encoded record exists. -/
theorem C2_non_file_src_never_rewritten (tag : String) (enc : Option String)
    (rec : ImageData) (rest : List (String × Option String × ImageData))
    (i : Nat) (html : String) (h : startsWithFile tag = false) :
    substLoop ((tag, enc, rec) :: rest) i html = substLoop rest (i + 1) html := by
  simp [substLoop, h]

/-- Witness for C2 at a non-file tag with an available encoded record. -/
theorem C2_non_file_src_never_rewritten_witness :
    substLoop [("a.png", some "data:image/png;base64,Eg==", defaultImageData)] 0 "<x>" =
      substLoop [] 1 "<x>" :=
  C2_non_file_src_never_rewritten "a.png" (some "data:image/png;base64,Eg==")
    defaultImageData [] 0 "<x>" (by decide)

/-- Claim C3: a `file://` tag whose encoded source is `none` makes the
loop report an unsupported-image condition carrying the record's type and
the index, leave the html unchanged at that position, and continue with
the remaining tags. -/
theorem C3_unsupported_image_reported_and_skipped (tag : String) (rec : ImageData)
    (rest : List (String × Option String × ImageData)) (i : Nat) (html : String)
    (h : startsWithFile tag = true) :
    substLoop ((tag, none, rec) :: rest) i html =
      ((substLoop rest (i + 1) html).1,
        RtfFilterError.unsupportedImage rec.type i :: (substLoop rest (i + 1) html).2) := by
  simp [substLoop, h]

/-- Witness for C3 at a `file://` tag with an unsupported (emf) record. -/
theorem C3_unsupported_image_reported_and_skipped_witness :
    substLoop [("file://a.emf", none, ⟨none, none, "image/emf"⟩)] 0 "<x>" =
      ((substLoop [] 1 "<x>").1,
        RtfFilterError.unsupportedImage "image/emf" 0 :: (substLoop [] 1 "<x>").2) :=
  C3_unsupported_image_reported_and_skipped "file://a.emf" ⟨none, none, "image/emf"⟩
    [] 0 "<x>" (by decide)

/-- Counterexample to claim C5: a `\defshp` picture group that is also
classified as a true duplicate (same id, same type as an earlier
payload-bearing record) is appended to the sequence, not discarded — the
duplicate branch runs before the WordArt test. The claim predicts the
extracted sequence keeps length 1 here; it has length 2. -/
theorem C5_counterexample :
    isWordArtShape "\x7b\\pict\x7b\\blipuid aa\x7d\\pngblip\\defshp 22\x7d" = true ∧
      (extractFromRtfGroups
        ["\x7b\\pict\x7b\\blipuid aa\x7d\\pngblip 11\x7d",
         "\x7b\\pict\x7b\\blipuid aa\x7d\\pngblip\\defshp 22\x7d"]).length = 2 := by
  decide

/-- Claim C5 as amended: a `\defshp` picture group contributes no element
to the sequence unless it is classified as a true duplicate (in which
case the duplicate policy wins and a reference is appended). -/
theorem C5_amended_defshp_discarded_unless_duplicate (st : ExtractState) (g : String)
    (hshape : isWordArtShape g = true) (hdup : isDuplicated st g = false) :
    extractStep st g = st := by
  simp [extractStep, hdup, hshape]

/-- Witness for amended C5 at a concrete non-duplicate `\defshp` group. -/
theorem C5_amended_defshp_discarded_unless_duplicate_witness :
    extractStep initExtractState "\x7b\\pict\\pngblip\\defshp 22\x7d" = initExtractState :=
  C5_amended_defshp_discarded_unless_duplicate initExtractState
    "\x7b\\pict\\pngblip\\defshp 22\x7d" (by decide) (by decide)

/-- Counterexample to claim C4: two picture groups sharing the identity
marker `cc` and the same classified type (`image/emf`) do NOT yield a
two-element sequence — the type is unsupported, so the first record has
no payload, duplicate detection fails, and the second group overwrites
the first in place, leaving length 1. -/
theorem C4_counterexample :
    getImageId "\x7b\\pict\x7b\\blipuid cc\x7d\\emfblip 1\x7d" = some "cc" ∧
      getImageType "\x7b\\pict\x7b\\blipuid cc\x7d\\emfblip 1\x7d" = "image/emf" ∧
      ¬ (extractFromRtfGroups
          ["\x7b\\pict\x7b\\blipuid cc\x7d\\emfblip 1\x7d",
           "\x7b\\pict\x7b\\blipuid cc\x7d\\emfblip 1\x7d"]).length = 2 ∧
      (extractFromRtfGroups
          ["\x7b\\pict\x7b\\blipuid cc\x7d\\emfblip 1\x7d",
           "\x7b\\pict\x7b\\blipuid cc\x7d\\emfblip 1\x7d"]).length = 1 := by
  decide

/-- Claim C4 as amended: two picture groups sharing an identity marker
and the same *supported* type, the first with a non-empty extracted
payload and not a decorative shape, yield the two-position sequence
`[0, 0]` over a single allocated record — the second element is the very
same record appended by reference, not a copy. -/
theorem C4_amended_duplicate_shared (g1 g2 : String) (id t : String)
    (h1 : getImageId g1 = some id) (h2 : getImageId g2 = some id)
    (ht1 : getImageType g1 = t) (ht2 : getImageType g2 = t)
    (hsup : isSupportedType t = true)
    (hcontent : getImageContent g1 ≠ "")
    (hshape : isWordArtShape g1 = false) :
    extractRun [g1, g2] = ⟨[mkNewImageData g1], [0, 0]⟩ := by
  have hmk_id : (mkNewImageData g1).id = some id := by
    simp [mkNewImageData, h1]
  have hmk_type : (mkNewImageData g1).type = t := by
    simp [mkNewImageData, ht1]
  have hmk_hex : (mkNewImageData g1).hex = some (getImageContent g1) := by
    simp [mkNewImageData, ht1, hsup]
  have hidx1 : imageDataIndexOf initExtractState g1 = none := by
    simp [imageDataIndexOf, h1, initExtractState]
  have hdup1 : isDuplicated initExtractState g1 = false := by
    simp [isDuplicated, isAlreadyExtracted, hidx1]
  have halt1 : isAlternateFormat initExtractState g1 = false := by
    simp [isAlternateFormat, isAlreadyExtracted, hidx1]
  have e1 : extractStep initExtractState g1 = ⟨[mkNewImageData g1], [0]⟩ := by
    simp only [extractStep, hdup1, halt1, hshape, hidx1]
    simp [initExtractState]
  have hidx2 : imageDataIndexOf ⟨[mkNewImageData g1], [0]⟩ g2 = some 0 := by
    simp [imageDataIndexOf, h2, hmk_id]
  have hrec2 : recAtRet ⟨[mkNewImageData g1], [0]⟩ 0 = mkNewImageData g1 := by
    simp [recAtRet]
  have halready2 : isAlreadyExtracted ⟨[mkNewImageData g1], [0]⟩ g2 = true := by
    simp [isAlreadyExtracted, hidx2, hrec2, hmk_hex, hexTruthy, hcontent]
  have hdup2 : isDuplicated ⟨[mkNewImageData g1], [0]⟩ g2 = true := by
    simp [isDuplicated, halready2, hidx2, hrec2, hmk_type, ht2]
  have e2 : extractStep ⟨[mkNewImageData g1], [0]⟩ g2 = ⟨[mkNewImageData g1], [0, 0]⟩ := by
    simp [extractStep, hdup2, hidx2]
  show List.foldl extractStep initExtractState [g1, g2] = _
  rw [List.foldl_cons, e1, List.foldl_cons, e2, List.foldl_nil]

/-- Witness for amended C4 at two identical supported png groups sharing
the identity marker `aa`. -/
theorem C4_amended_duplicate_shared_witness :
    extractRun
        ["\x7b\\pict\x7b\\blipuid aa\x7d\\pngblip 11\x7d",
         "\x7b\\pict\x7b\\blipuid aa\x7d\\pngblip 11\x7d"] =
      ⟨[mkNewImageData "\x7b\\pict\x7b\\blipuid aa\x7d\\pngblip 11\x7d"], [0, 0]⟩ :=
  C4_amended_duplicate_shared
    "\x7b\\pict\x7b\\blipuid aa\x7d\\pngblip 11\x7d"
    "\x7b\\pict\x7b\\blipuid aa\x7d\\pngblip 11\x7d"
    "aa" "image/png" (by decide) (by decide) (by decide) (by decide) (by decide)
    (by decide) (by decide)

/-- Counterexample to claim C6: a third group whose id `aa` matches the
payload-bearing first record (position 0, not the last position) and
whose type differs — the claim predicts an in-place overwrite — is
instead discarded when it contains `\defshp`: the WordArt test shares
the discard branch with the alternate-format test. Record 0 keeps its
original png type instead of the group's jpeg type. -/
theorem C6_counterexample :
    getImageId "\x7b\\pict\x7b\\blipuid aa\x7d\\jpegblip\\defshp 33\x7d" = some "aa" ∧
      getImageType "\x7b\\pict\x7b\\blipuid aa\x7d\\jpegblip\\defshp 33\x7d" = "image/jpeg" ∧
      imageDataIndexOf
          (extractRun
            ["\x7b\\pict\x7b\\blipuid aa\x7d\\pngblip 11\x7d",
             "\x7b\\pict\x7b\\blipuid bb\x7d\\pngblip 22\x7d"])
          "\x7b\\pict\x7b\\blipuid aa\x7d\\jpegblip\\defshp 33\x7d" = some 0 ∧
      (extractRun
          ["\x7b\\pict\x7b\\blipuid aa\x7d\\pngblip 11\x7d",
           "\x7b\\pict\x7b\\blipuid bb\x7d\\pngblip 22\x7d"]).ret.length = 2 ∧
      ((extractFromRtfGroups
          ["\x7b\\pict\x7b\\blipuid aa\x7d\\pngblip 11\x7d",
           "\x7b\\pict\x7b\\blipuid bb\x7d\\pngblip 22\x7d",
           "\x7b\\pict\x7b\\blipuid aa\x7d\\jpegblip\\defshp 33\x7d"]).getD 0
          defaultImageData).type = "image/png" := by
  decide

/-- Claim C6 as amended: when a group's id matches an existing
payload-bearing record of a different type and the group is not a
decorative (`\defshp`) shape, it is discarded exactly when the matched
record is the last element of the output built so far; otherwise a new
record built from the group overwrites the matched position in place,
leaving the sequence length unchanged. -/
theorem C6_amended_alternate_or_overwrite (st : ExtractState) (g : String) (idx : Nat)
    (hidx : imageDataIndexOf st g = some idx)
    (hhex : hexTruthy (recAtRet st idx).hex = true)
    (htype : (recAtRet st idx).type ≠ getImageType g)
    (hshape : isWordArtShape g = false) :
    (idx + 1 = st.ret.length → extractStep st g = st) ∧
    (idx + 1 ≠ st.ret.length →
      extractStep st g = ⟨st.store ++ [mkNewImageData g], st.ret.set idx st.store.length⟩ ∧
      (extractStep st g).ret.length = st.ret.length ∧
      extractStep st g ≠ st) := by
  have halready : isAlreadyExtracted st g = true := by
    simp [isAlreadyExtracted, hidx, hhex]
  have hdup : isDuplicated st g = false := by
    simp [isDuplicated, hidx, htype]
  constructor
  · intro hlast
    have halt : isAlternateFormat st g = true := by
      simp [isAlternateFormat, isAlreadyExtracted, hidx, hhex, htype, hlast]
    simp [extractStep, hdup, halt]
  · intro hlast
    have halt : isAlternateFormat st g = false := by
      simp [isAlternateFormat, hidx, hlast]
    have he : extractStep st g =
        ⟨st.store ++ [mkNewImageData g], st.ret.set idx st.store.length⟩ := by
      simp [extractStep, hdup, halt, hshape, hidx]
    refine ⟨he, ?_, ?_⟩
    · rw [he]
      simp [List.length_set]
    · rw [he]
      intro hcontra
      have hlen := congrArg (fun s : ExtractState => s.store.length) hcontra
      simp at hlen

/-- Witness for amended C6: the overwrite case at a concrete state built
from two png groups, stepped with a jpeg group matching the non-last
first record. -/
theorem C6_amended_alternate_or_overwrite_witness :
    extractStep
        (extractRun
          ["\x7b\\pict\x7b\\blipuid aa\x7d\\pngblip 11\x7d",
           "\x7b\\pict\x7b\\blipuid bb\x7d\\pngblip 22\x7d"])
        "\x7b\\pict\x7b\\blipuid aa\x7d\\jpegblip 33\x7d" =
      ⟨(extractRun
          ["\x7b\\pict\x7b\\blipuid aa\x7d\\pngblip 11\x7d",
           "\x7b\\pict\x7b\\blipuid bb\x7d\\pngblip 22\x7d"]).store ++
          [mkNewImageData "\x7b\\pict\x7b\\blipuid aa\x7d\\jpegblip 33\x7d"],
        (extractRun
          ["\x7b\\pict\x7b\\blipuid aa\x7d\\pngblip 11\x7d",
           "\x7b\\pict\x7b\\blipuid bb\x7d\\pngblip 22\x7d"]).ret.set 0
          (extractRun
            ["\x7b\\pict\x7b\\blipuid aa\x7d\\pngblip 11\x7d",
             "\x7b\\pict\x7b\\blipuid bb\x7d\\pngblip 22\x7d"]).store.length⟩ :=
  ((C6_amended_alternate_or_overwrite
      (extractRun
        ["\x7b\\pict\x7b\\blipuid aa\x7d\\pngblip 11\x7d",
         "\x7b\\pict\x7b\\blipuid bb\x7d\\pngblip 22\x7d"])
      "\x7b\\pict\x7b\\blipuid aa\x7d\\jpegblip 33\x7d" 0
      (by decide) (by decide) (by decide) (by decide)).2 (by decide)).1

/-- Claim C7: the classifier tests its fixed ordered marker list and
returns the type of the first matching marker — `\pngblip` gives png,
else `\jpegblip` gives jpeg, else `\emfblip` gives emf, else
`\wmetafile` followed by a digit gives wmf, and content matching no
marker gives `'unknown'`. -/
theorem C7_classifier_first_match (s : String) :
    (containsSub s "\\pngblip" = true → getImageType s = "image/png") ∧
      (containsSub s "\\pngblip" = false → containsSub s "\\jpegblip" = true →
        getImageType s = "image/jpeg") ∧
      (containsSub s "\\pngblip" = false → containsSub s "\\jpegblip" = false →
        containsSub s "\\emfblip" = true → getImageType s = "image/emf") ∧
      (containsSub s "\\pngblip" = false → containsSub s "\\jpegblip" = false →
        containsSub s "\\emfblip" = false → wmetafileAt s.data = true →
        getImageType s = "image/wmf") ∧
      (containsSub s "\\pngblip" = false → containsSub s "\\jpegblip" = false →
        containsSub s "\\emfblip" = false → wmetafileAt s.data = false →
        getImageType s = "unknown") := by
  refine ⟨?_, ?_, ?_, ?_, ?_⟩ <;> intros <;>
    simp [getImageType, recognizableImageTypes, List.find?, *]

/-- Witness for C7 at concrete marker-bearing and marker-free content. -/
theorem C7_classifier_first_match_witness :
    getImageType "xx\\pngblip yy" = "image/png" ∧
      getImageType "xx\\wmetafile8 yy" = "image/wmf" ∧
      getImageType "plain text" = "unknown" :=
  ⟨(C7_classifier_first_match "xx\\pngblip yy").1 (by decide),
    (C7_classifier_first_match "xx\\wmetafile8 yy").2.2.2.1
      (by decide) (by decide) (by decide) (by decide),
    (C7_classifier_first_match "plain text").2.2.2.2
      (by decide) (by decide) (by decide) (by decide)⟩

/-- The scanner loop yields nothing when no suffix of the text matches
the img-src regex. -/
theorem imgScanLoop_eq_nil (fuel : Nat) :
    ∀ l : List Char, (∀ t ∈ l.tails, tryMatchImg t = none) → imgScanLoop fuel l = [] := by
  induction fuel with
  | zero => intro l _; cases l <;> rfl
  | succ fuel ih =>
    intro l h
    match l with
    | [] => rfl
    | c :: tl =>
      have hm : tryMatchImg (c :: tl) = none := h _ (by simp [List.mem_tails])
      have hrest : ∀ t ∈ tl.tails, tryMatchImg t = none := fun t ht =>
        h t ((List.mem_tails t (c :: tl)).2
          (((List.mem_tails t tl).1 ht).trans (List.suffix_cons c tl)))
      simp [imgScanLoop, hm, ih tl hrest]

/-- Claim C8: the scanner returns the captured src values in document
order — the two-tag example yields exactly `["a.png", "b.png"]`, the
empty string yields the empty sequence, and so does any html none of
whose suffixes matches the img-src pattern. -/
theorem C8_scanner_document_order :
    extractTagsFromHtml "<p><img src=\"a.png\"></p><img src=\"b.png\">" = ["a.png", "b.png"] ∧
      extractTagsFromHtml "" = [] ∧
      ∀ html : String, (∀ t ∈ html.data.tails, tryMatchImg t = none) →
        extractTagsFromHtml html = [] := by
  refine ⟨by decide, by decide, ?_⟩
  intro html h
  exact imgScanLoop_eq_nil (html.length + 1) html.data h

/-- Witness for C8 at concrete match-free html. -/
theorem C8_scanner_document_order_witness :
    extractTagsFromHtml "<p>no images here</p>" = [] :=
  C8_scanner_document_order.2.2 "<p>no images here</p>" (by decide)

/-- The substitution loop is the identity (and reports nothing) when no
tag starts with `file://`. -/
theorem substLoop_no_file :
    ∀ (l : List (String × Option String × ImageData)) (i : Nat) (html : String),
      (∀ x ∈ l, startsWithFile x.1 = false) → substLoop l i html = (html, []) := by
  intro l
  induction l with
  | nil => intro i html _; rfl
  | cons x rest ih =>
    intro i html h
    obtain ⟨tag, enc, rec⟩ := x
    have h0 : startsWithFile tag = false := h (tag, enc, rec) (by simp)
    simp [substLoop, h0, ih (i + 1) html (fun y hy => h y (by simp [hy]))]

/-- The reconciler leaves the html unchanged when no scanned tag starts
with `file://` (every branch returns the input html). -/
theorem handleRtfImages_no_file (html rtf : String) (imgTags : List String)
    (h : ∀ t ∈ imgTags, startsWithFile t = false) :
    (handleRtfImages html rtf imgTags).1 = html := by
  by_cases hx : extractFromRtf rtf = []
  · simp [handleRtfImages, hx]
  · by_cases hlen : imgTags.length = (extractFromRtf rtf).length
    · have hsub :
          substLoop
            (imgTags.zip (((extractFromRtf rtf).map createSrcWithBase64).zip
              (extractFromRtf rtf))) 0 html = (html, []) := by
        refine substLoop_no_file _ 0 html ?_
        intro x hxmem
        obtain ⟨a, b⟩ := x
        exact h a (List.of_mem_zip hxmem).1
      simp [handleRtfImages, hx, hlen, hsub, List.length_map]
    · simp [handleRtfImages, hx, hlen, List.length_map]

/-- The whole filter returns the html unchanged when no scanned tag of
that html starts with `file://`. -/
theorem pasteFiltersImage_no_file (html : String) (allow : Bool) (rtf : String)
    (h : ∀ t ∈ extractTagsFromHtml html, startsWithFile t = false) :
    (pasteFiltersImage html allow rtf).1 = html := by
  cases allow with
  | false => rfl
  | true =>
    by_cases he : extractTagsFromHtml html = []
    · simp [pasteFiltersImage, he]
    · by_cases hr : rtf = ""
      · simp [pasteFiltersImage, he, hr, handleBlobImages]
      · simp [pasteFiltersImage, he, hr, handleRtfImages_no_file html rtf _ h]

/-- Counterexample to claim C9: the filter is not idempotent. The first
tag's substitution pattern accepts an *unquoted* `src=file://x` (the
optional-quote `["']?` in the pattern), so the first application rewrites
the decoy text and leaves the scanned `file://` tag in place; the second
application then rewrites that remaining tag, changing the output again. -/
theorem C9_counterexample :
    (pasteFiltersImage
        (pasteFiltersImage "<img src=file://x><img src=\"file://x\">" true
          "\x7b\\rtf1\x7b\\pict\\pngblip 12\x7d\x7d").1 true
        "\x7b\\rtf1\x7b\\pict\\pngblip 12\x7d\x7d").1 ≠
      (pasteFiltersImage "<img src=file://x><img src=\"file://x\">" true
        "\x7b\\rtf1\x7b\\pict\\pngblip 12\x7d\x7d").1 := by
  decide

/-- Claim C9 as amended: a second application of the filter returns the
first application's output unchanged provided none of that output's
scanned img src values still begins with `file://` (in particular when
every file tag was rewritten in place to a data URL); unconditional
idempotence fails because a substitution pattern can match outside its
own scanned tag, leaving a `file://` source behind. -/
theorem C9_amended_second_pass_no_op (html : String) (allow : Bool) (rtf : String)
    (h : ∀ t ∈ extractTagsFromHtml (pasteFiltersImage html allow rtf).1,
      startsWithFile t = false) :
    (pasteFiltersImage (pasteFiltersImage html allow rtf).1 allow rtf).1 =
      (pasteFiltersImage html allow rtf).1 :=
  pasteFiltersImage_no_file _ allow rtf h

/-- Witness for amended C9 at a concrete rewrite: the single file tag is
replaced by a data URL in the first pass, and the second pass fixes the
result. -/
theorem C9_amended_second_pass_no_op_witness :
    (pasteFiltersImage
        (pasteFiltersImage "<img src=\"file://x\">" true
          "\x7b\\rtf1\x7b\\pict\\pngblip 12\x7d\x7d").1 true
        "\x7b\\rtf1\x7b\\pict\\pngblip 12\x7d\x7d").1 =
      (pasteFiltersImage "<img src=\"file://x\">" true
        "\x7b\\rtf1\x7b\\pict\\pngblip 12\x7d\x7d").1 :=
  C9_amended_second_pass_no_op "<img src=\"file://x\">" true
    "\x7b\\rtf1\x7b\\pict\\pngblip 12\x7d\x7d" (by decide)

/-- The boolean supported-type test is membership in the supported set. -/
theorem isSupportedType_iff (t : String) :
    isSupportedType t = true ↔ t ∈ supportedImageTypes := by
  simp only [isSupportedType, supportedImageTypes, List.contains, List.elem]
  cases h1 : t == "image/png" <;> cases h2 : t == "image/jpeg" <;>
    simp_all [beq_iff_eq]

/-- The freshly built record of a group satisfies the payload invariant:
its hex is present exactly when its type is supported. -/
theorem mkNewImageData_invariant (g : String) :
    (mkNewImageData g).hex ≠ none ↔ (mkNewImageData g).type ∈ supportedImageTypes := by
  by_cases hs : isSupportedType (getImageType g) = true
  · simp [mkNewImageData, hs, (isSupportedType_iff _).1 hs]
  · have hns : getImageType g ∉ supportedImageTypes := fun hm =>
      hs ((isSupportedType_iff _).2 hm)
    simp [mkNewImageData, hs, hns]

/-- Every record in the store of the extraction run satisfies the
payload invariant. -/
theorem store_invariant :
    ∀ (groups : List String) (st : ExtractState),
      (∀ r ∈ st.store, (r.hex ≠ none ↔ r.type ∈ supportedImageTypes)) →
      ∀ r ∈ (groups.foldl extractStep st).store,
        (r.hex ≠ none ↔ r.type ∈ supportedImageTypes) := by
  intro groups
  induction groups with
  | nil => intro st h; simpa using h
  | cons g gs ih =>
    intro st h
    rw [List.foldl_cons]
    refine ih (extractStep st g) ?_
    intro r hr
    unfold extractStep at hr
    by_cases hdup : isDuplicated st g = true
    · rw [if_pos hdup] at hr
      rcases hidx : imageDataIndexOf st g with _ | idx <;> rw [hidx] at hr <;>
        exact h r hr
    · rw [if_neg hdup] at hr
      by_cases halt : (isAlternateFormat st g || isWordArtShape g) = true
      · rw [if_pos halt] at hr
        exact h r hr
      · rw [if_neg halt] at hr
        rcases hidx : imageDataIndexOf st g with _ | idx <;> rw [hidx] at hr <;>
          rcases List.mem_append.1 hr with hmem | hmem
        · exact h r hmem
        · rw [List.mem_singleton.1 hmem]
          exact mkNewImageData_invariant g
        · exact h r hmem
        · rw [List.mem_singleton.1 hmem]
          exact mkNewImageData_invariant g

/-- A lookup with the placeholder default preserves any property shared
by the stored records and the placeholder. -/
theorem getD_invariant {P : ImageData → Prop} :
    ∀ (l : List ImageData) (k : Nat), (∀ r ∈ l, P r) → P defaultImageData →
      P (l.getD k defaultImageData) := by
  intro l
  induction l with
  | nil => intro k _ hd; simpa [List.getD] using hd
  | cons a tl ih =>
    intro k h hd
    cases k with
    | zero => simpa [List.getD] using h a (by simp)
    | succ k =>
      simp only [List.getD_cons_succ]
      exact ih k (fun r hr => h r (by simp [hr])) hd

/-- Claim C10: every record returned by `extractFromRtf` has a hex
payload exactly when its type is in the supported set, and the encoder
produces a data URL for it exactly under the same condition — so the
encoder is never applied to a supported-type record lacking a payload. -/
theorem C10_payload_iff_supported (rtf : String) (r : ImageData)
    (hr : r ∈ extractFromRtf rtf) :
    (r.hex ≠ none ↔ r.type ∈ supportedImageTypes) ∧
      (createSrcWithBase64 r ≠ none ↔ r.type ∈ supportedImageTypes) := by
  have hmain : r.hex ≠ none ↔ r.type ∈ supportedImageTypes := by
    unfold extractFromRtf extractFromRtfGroups at hr
    obtain ⟨k, _, rfl⟩ := List.mem_map.1 hr
    exact
      @getD_invariant (fun r => r.hex ≠ none ↔ r.type ∈ supportedImageTypes) _ k
        (store_invariant _ initExtractState (by simp [initExtractState]))
        (by simp [defaultImageData, supportedImageTypes])
  refine ⟨hmain, ?_⟩
  by_cases hs : r.type ∈ supportedImageTypes
  · have hb : isSupportedType r.type = true := (isSupportedType_iff _).2 hs
    have hne : r.type ≠ "" := by
      rcases (by simpa [supportedImageTypes] using hs : r.type = "image/png" ∨
        r.type = "image/jpeg") with h | h <;> simp [h]
    simp [createSrcWithBase64, hb, hne, hs]
  · have hb : isSupportedType r.type = false := by
      rcases hbv : isSupportedType r.type with _ | _
      · rfl
      · exact absurd ((isSupportedType_iff _).1 hbv) hs
    simp [createSrcWithBase64, hb, hs]

/-- Witness for C10 at the record extracted from a concrete png rtf. -/
theorem C10_payload_iff_supported_witness :
    ((⟨none, some "12", "image/png"⟩ : ImageData).hex ≠ none ↔
        (⟨none, some "12", "image/png"⟩ : ImageData).type ∈ supportedImageTypes) ∧
      (createSrcWithBase64 ⟨none, some "12", "image/png"⟩ ≠ none ↔
        (⟨none, some "12", "image/png"⟩ : ImageData).type ∈ supportedImageTypes) :=
  C10_payload_iff_supported "\x7b\\rtf1\x7b\\pict\\pngblip 12\x7d\x7d"
    ⟨none, some "12", "image/png"⟩ (by decide)

end PasteImage
